import Mathlib

/-!
Verification of the repository-scan and findings-normalization pipeline of the
github-project-assistant CLI. The definitions below are shallow embeddings of
`RepoScanner` (src/src/gpa/commands/scan.py) and
`GroqService.generate_scanned_result` (src/gpa/services/groq_service.py):
Python dictionaries and lists decoded from JSON become the `Json` inductive,
`json.loads` becomes `json_loads`, the regular-expression bracket search
becomes `greedyBracketSearch`, and each method becomes a Lean function of the
same name. External collaborator calls (the language-model API and the GitHub
listing) are modelled as explicit parameters carrying either a result or an
error message, mirroring the try/except structure of the source.
-/

namespace GPA

/-- Python values decoded by `json.loads`.  Numbers keep their source lexeme
(they are never used arithmetically by the scanner). -/
inductive Json where
  | null : Json
  | bool : Bool → Json
  | num : String → Json
  | str : String → Json
  | arr : List Json → Json
  | obj : List (String × Json) → Json

/-- Whitespace accepted between JSON tokens (as in Python's json module). -/
def isJsonWs (c : Char) : Bool :=
  c = ' ' || c = '\t' || c = '\n' || c = '\r'

def skipWs (l : List Char) : List Char := l.dropWhile isJsonWs

def isDigitCh (c : Char) : Bool := '0' ≤ c && c ≤ '9'

def isHexCh (c : Char) : Bool :=
  isDigitCh c || ('a' ≤ c && c ≤ 'f') || ('A' ≤ c && c ≤ 'F')

def hexVal (c : Char) : Nat :=
  if isDigitCh c then c.toNat - '0'.toNat
  else if 'a' ≤ c && c ≤ 'f' then c.toNat - 'a'.toNat + 10
  else c.toNat - 'A'.toNat + 10

def takeDigits (l : List Char) : List Char × List Char :=
  (l.takeWhile isDigitCh, l.dropWhile isDigitCh)

/-- Body of a JSON string literal (after the opening quote); strict mode:
raw control characters are rejected, standard escapes are decoded. -/
def jsonStringBody : Nat → List Char → List Char → Option (String × List Char)
  | 0, _, _ => none
  | fuel + 1, l, acc =>
    match l with
    | [] => none
    | c :: rest =>
      if c = '"' then some (⟨acc.reverse⟩, rest)
      else if c = '\\' then
        match rest with
        | [] => none
        | e :: rest2 =>
          if e = '"' then jsonStringBody fuel rest2 ('"' :: acc)
          else if e = '\\' then jsonStringBody fuel rest2 ('\\' :: acc)
          else if e = '/' then jsonStringBody fuel rest2 ('/' :: acc)
          else if e = 'b' then jsonStringBody fuel rest2 ('\x08' :: acc)
          else if e = 'f' then jsonStringBody fuel rest2 ('\x0c' :: acc)
          else if e = 'n' then jsonStringBody fuel rest2 ('\n' :: acc)
          else if e = 'r' then jsonStringBody fuel rest2 ('\r' :: acc)
          else if e = 't' then jsonStringBody fuel rest2 ('\t' :: acc)
          else if e = 'u' then
            match rest2.take 4 with
            | [h1, h2, h3, h4] =>
              if isHexCh h1 && isHexCh h2 && isHexCh h3 && isHexCh h4 then
                jsonStringBody fuel (rest2.drop 4)
                  (Char.ofNat
                    (hexVal h1 * 4096 + hexVal h2 * 256 + hexVal h3 * 16 + hexVal h4) :: acc)
              else none
            | _ => none
          else none
      else if c.toNat < 32 then none
      else jsonStringBody fuel rest (c :: acc)

/-- JSON number grammar: int part, optional fraction, optional exponent.
Returns the consumed lexeme (sign excluded) and the remaining characters. -/
def jsonNumBody (l : List Char) : Option (List Char × List Char) :=
  match l with
  | [] => none
  | c :: rest =>
    if ¬ isDigitCh c then none
    else
      let ip := if c = '0' then (['0'], rest) else takeDigits l
      let fp :=
        match ip.2 with
        | '.' :: r2 =>
          let ds := takeDigits r2
          if ds.1 = [] then (([] : List Char), ip.2) else ('.' :: ds.1, ds.2)
        | _ => ([], ip.2)
      let ep :=
        match fp.2 with
        | e :: r2 =>
          if e = 'e' || e = 'E' then
            let sgn :=
              match r2 with
              | s :: r3 => if s = '+' || s = '-' then ([s], r3) else (([] : List Char), r2)
              | [] => ([], r2)
            let ds := takeDigits sgn.2
            if ds.1 = [] then (([] : List Char), fp.2) else (e :: sgn.1 ++ ds.1, ds.2)
          else ([], fp.2)
        | [] => ([], fp.2)
      some (ip.1 ++ fp.1 ++ ep.1, ep.2)

/-- A JSON number token, with Python's extra literals NaN / Infinity / -Infinity. -/
def jsonNumber (l : List Char) : Option (Json × List Char) :=
  match l with
  | '-' :: r =>
    if r.take 8 = "Infinity".data then some (Json.num "-Infinity", r.drop 8)
    else
      match jsonNumBody r with
      | some (lex, rest) => some (Json.num ⟨'-' :: lex⟩, rest)
      | none => none
  | _ =>
    match jsonNumBody l with
    | some (lex, rest) => some (Json.num ⟨lex⟩, rest)
    | none => none

/-- Insert a key into an association list the way Python dict assignment does:
an existing key is overwritten in place, a new key is appended. -/
def objInsert (fs : List (String × Json)) (k : String) (v : Json) :
    List (String × Json) :=
  if fs.any (fun p => p.1 = k) then
    fs.map (fun p => if p.1 = k then (k, v) else p)
  else fs ++ [(k, v)]

mutual

/-- Recursive-descent JSON value, mirroring Python `json.loads`. -/
def jsonVal : Nat → List Char → Option (Json × List Char)
  | 0, _ => none
  | fuel + 1, l =>
    match skipWs l with
    | [] => none
    | c :: rest =>
      if c = '{' then jsonObjItems fuel rest true []
      else if c = '[' then jsonArrItems fuel rest true []
      else if c = '"' then
        match jsonStringBody fuel rest [] with
        | some (s, r) => some (Json.str s, r)
        | none => none
      else if c = 't' then
        if rest.take 3 = ['r', 'u', 'e'] then some (Json.bool true, rest.drop 3) else none
      else if c = 'f' then
        if rest.take 4 = ['a', 'l', 's', 'e'] then some (Json.bool false, rest.drop 4) else none
      else if c = 'n' then
        if rest.take 3 = ['u', 'l', 'l'] then some (Json.null, rest.drop 3) else none
      else if c = 'N' then
        if rest.take 2 = ['a', 'N'] then some (Json.num "NaN", rest.drop 2) else none
      else if c = 'I' then
        if rest.take 7 = "nfinity".data then some (Json.num "Infinity", rest.drop 7) else none
      else if c = '-' || isDigitCh c then jsonNumber (c :: rest)
      else none

/-- Items of a JSON array after the opening bracket. -/
def jsonArrItems : Nat → List Char → Bool → List Json → Option (Json × List Char)
  | 0, _, _, _ => none
  | fuel + 1, l, first, acc =>
    match skipWs l with
    | [] => none
    | c :: rest =>
      if first ∧ c = ']' then some (Json.arr acc.reverse, rest)
      else
        match jsonVal fuel (c :: rest) with
        | none => none
        | some (v, r) =>
          match skipWs r with
          | ']' :: r2 => some (Json.arr (v :: acc).reverse, r2)
          | ',' :: r2 => jsonArrItems fuel r2 false (v :: acc)
          | _ => none

/-- Members of a JSON object after the opening brace. -/
def jsonObjItems : Nat → List Char → Bool → List (String × Json) →
    Option (Json × List Char)
  | 0, _, _, _ => none
  | fuel + 1, l, first, acc =>
    match skipWs l with
    | [] => none
    | c :: rest =>
      if first ∧ c = '}' then some (Json.obj acc, rest)
      else if c = '"' then
        match jsonStringBody fuel rest [] with
        | none => none
        | some (k, r) =>
          match skipWs r with
          | ':' :: r2 =>
            match jsonVal fuel r2 with
            | none => none
            | some (v, r3) =>
              match skipWs r3 with
              | '}' :: r4 => some (Json.obj (objInsert acc k v), r4)
              | ',' :: r4 => jsonObjItems fuel r4 false (objInsert acc k v)
              | _ => none
          | _ => none
      else none

end

/-- `json.loads`: the whole text must be one JSON value, optionally padded by
whitespace; on any other input the Python call raises, modelled as `none`. -/
def json_loads (s : String) : Option Json :=
  match jsonVal (4 * s.data.length + 16) s.data with
  | some (v, rest) => if skipWs rest = [] then some v else none
  | none => none

/-- Last index of a character in a list, if present. -/
def lastIdxOf : List Char → Char → Option Nat
  | [], _ => none
  | a :: rest, c =>
    match lastIdxOf rest c with
    | some i => some (i + 1)
    | none => if a = c then some 0 else none

/-- All characters up to and including the last occurrence of `c`. -/
def takeToLast (l : List Char) (c : Char) : List Char :=
  match lastIdxOf l c with
  | none => []
  | some i => l.take (i + 1)

/-- The regular-expression search both scanner variants perform
(`\x7b[\s\S]*\x7d|\[[\s\S]*\]` and, on the newline-stripped text,
`\[.*\]|\x7b.*\x7d`): the match starts at the leftmost opening brace or
bracket that has a matching closer later in the text, and extends greedily to
the last such closer of the same kind. -/
def greedyBracketSearch : List Char → Option (List Char)
  | [] => none
  | c :: rest =>
    if c = '{' ∧ rest.contains '}' then some (c :: takeToLast rest '}')
    else if c = '[' ∧ rest.contains ']' then some (c :: takeToLast rest ']')
    else greedyBracketSearch rest

/-- Python `str.strip()` on ASCII whitespace. -/
def pyIsSpace (c : Char) : Bool :=
  c = ' ' || c = '\t' || c = '\n' || c = '\r' || c = '\x0b' || c = '\x0c'

def pyStrip (s : String) : String :=
  ⟨((s.data.dropWhile pyIsSpace).reverse.dropWhile pyIsSpace).reverse⟩

/-! ## The Finding data model -/

/-- One normalized finding: the five-field dictionary both normalizers build.
Field values are arbitrary decoded values, exactly as in the Python dicts. -/
structure Finding where
  severity : Json
  category : Json
  description : Json
  location : Json
  recommendation : Json

/-- The Python dict literal `cleaned_finding` / `normalized` built from a
Finding's five fields, in source order. -/
def Finding.toObj (f : Finding) : List (String × Json) :=
  [("severity", f.severity), ("category", f.category),
   ("description", f.description), ("location", f.location),
   ("recommendation", f.recommendation)]

/-- A finding whose five fields are string values. -/
def mkFinding (sev cat desc loc rcm : String) : Finding :=
  ⟨Json.str sev, Json.str cat, Json.str desc, Json.str loc, Json.str rcm⟩

/-- Python `d[k]` / `d.get(k)` on a dict (keys are unique by construction). -/
def dictGet (fs : List (String × Json)) (k : String) : Option Json :=
  (fs.find? (fun p => p.1 = k)).map (fun p => p.2)

/-- Python `d.get(k, default)`. -/
def dictGetD (fs : List (String × Json)) (k : String) (d : Json) : Json :=
  (dictGet fs k).getD d

/-- Python `k in d` for a dict. -/
def dictHas (fs : List (String × Json)) (k : String) : Bool :=
  (fs.find? (fun p => p.1 = k)).isSome

/-- Python iteration `for x in v`: lists yield elements, strings yield
one-character strings, dicts yield their keys; other values raise TypeError. -/
def pyIterElems : Json → Option (List Json)
  | Json.arr xs => some xs
  | Json.str s => some (s.data.map (fun c => Json.str ⟨[c]⟩))
  | Json.obj fs => some (fs.map (fun p => Json.str p.1))
  | _ => none

/-- Python type name of a decoded value, as it appears in `str(TypeError)`. -/
def pyTypeNameOf : Json → String
  | Json.null => "NoneType"
  | Json.bool _ => "bool"
  | Json.num lex =>
    if lex.data.any (fun c => c = '.' || c = 'e' || c = 'E' || c = 'I' || c = 'N')
    then "float" else "int"
  | Json.str _ => "str"
  | Json.arr _ => "list"
  | Json.obj _ => "dict"

/-! ## GroqService.generate_scanned_result (src/gpa/services/groq_service.py) -/

/-- Lines 328-333 / 344-349: shape the decoded value — the value of a
`findings` key if the result is a dict having one, the list itself if a bare
list, otherwise a one-element list wrapping the result. -/
def shapeFindings (result : Json) : Json :=
  match result with
  | Json.obj fs =>
    match dictGet fs "findings" with
    | some v => v
    | none => Json.arr [Json.obj fs]
  | Json.arr xs => Json.arr xs
  | other => Json.arr [other]

/-- Lines 377-387: the `cleaned_finding` dict — field-default filling. -/
def cleanFinding (fs : List (String × Json)) : Finding :=
  ⟨dictGetD fs "severity" (Json.str "Medium"),
   dictGetD fs "category" (Json.str "Quality"),
   dictGetD fs "description" (Json.str "No description provided"),
   dictGetD fs "location" (Json.str "Unknown"),
   dictGetD fs "recommendation" (Json.str "No recommendation provided")⟩

/-- Lines 374-388: the cleaning loop keeps exactly the dict entries,
completing each with the named defaults. -/
def cleanedFindings (elems : List Json) : List Finding :=
  elems.filterMap (fun j =>
    match j with
    | Json.obj fs => some (cleanFinding fs)
    | _ => none)

/-- Line 390: `return cleaned_findings or [no-significant-issues]`. -/
def noIssuesFinding : Finding :=
  mkFinding "Low" "Info" "No significant issues found" "Repository-wide"
    "Continue monitoring and following best practices"

def nonEmptyOrNoIssues (fs : List Finding) : List Finding :=
  if fs.isEmpty then [noIssuesFinding] else fs

/-- Lines 352-360: synthetic finding when a bracketed substring exists but
fails to decode. -/
def parsingIssuesFinding : Finding :=
  mkFinding "Medium" "Quality" "Code analysis completed with parsing issues"
    "Repository-wide" "Review the codebase manually or try scanning specific directories"

/-- Lines 362-371: synthetic finding when no bracketed substring exists. -/
def unavailableFinding : Finding :=
  mkFinding "Medium" "Quality"
    "Code analysis completed but structured results unavailable"
    "Repository-wide" "Try scanning with different parameters or review specific files"

/-- Lines 400-409: the outer `except` converts any exception raised inside the
try block into a single structured error finding. -/
def analysisErrorFinding (msg : String) : Finding :=
  mkFinding "High" "Error" ("Analysis error: " ++ msg) "N/A"
    "Check your Groq API configuration and try again"

/-- Lines 373-398: iterate the shaped findings value (a TypeError from a
non-iterable value is caught by the outer except), keep and complete the dict
entries, and substitute the no-significant-issues finding if nothing is left. -/
def validateAndClean (findings : Json) : List Finding :=
  match pyIterElems findings with
  | none =>
    [analysisErrorFinding ("\x27" ++ pyTypeNameOf findings ++ "\x27 object is not iterable")]
  | some elems => nonEmptyOrNoIssues (cleanedFindings elems)

/-- Lines 320-398: the deterministic part of `generate_scanned_result` — from
the model's response text (stripped on receipt) to the returned finding list. -/
def generate_scanned_result_text (raw : String) : List Finding :=
  let response_text := pyStrip raw
  match json_loads response_text with
  | some result => validateAndClean (shapeFindings result)
  | none =>
    match greedyBracketSearch response_text.data with
    | some sub =>
      match json_loads ⟨sub⟩ with
      | some result => validateAndClean (shapeFindings result)
      | none => validateAndClean (Json.arr [Json.obj parsingIssuesFinding.toObj])
    | none => validateAndClean (Json.arr [Json.obj unavailableFinding.toObj])

/-- Outcome of the external chat-completion call for one batch: the response
text, or a raised transport/auth error with its message. -/
inductive GroqOutcome where
  | ok (text : String)
  | err (msg : String)

/-- `generate_scanned_result`: a transport/auth error raised by the client is
caught by the function's own except block (lines 400-409) and converted into a
single error finding; it does not propagate to the caller. -/
def generate_scanned_result : GroqOutcome → List Finding
  | GroqOutcome.ok t => generate_scanned_result_text t
  | GroqOutcome.err e => [analysisErrorFinding e]

/-! ## RepoScanner (src/src/gpa/commands/scan.py) -/

/-- Python `k in finding` inside `all(...)` (line 198): key membership for a
dict, substring test for a str, element membership for a list, and a
TypeError (`none`) for anything else. -/
def strStarts : List Char → List Char → Bool
  | [], _ => true
  | _ :: _, [] => false
  | a :: as, b :: bs => a = b && strStarts as bs

def strHasSub (needle : List Char) : List Char → Bool
  | [] => strStarts needle []
  | c :: rest => strStarts needle (c :: rest) || strHasSub needle rest

def keyMem (k : String) : Json → Option Bool
  | Json.obj fs => some (dictHas fs k)
  | Json.str s => some (strHasSub k.data s.data)
  | Json.arr xs => some (xs.any (fun j =>
      match j with
      | Json.str t => t = k
      | _ => false))
  | _ => none

/-- Lines 197-200: `all(key in finding for key in [severity, category,
description])`; `none` models the TypeError raised by `in` on an unsupported
value. -/
def requiredKeysCheck (j : Json) : Option Bool :=
  match keyMem "severity" j, keyMem "category" j, keyMem "description" j with
  | some b1, some b2, some b3 => some (b1 && b2 && b3)
  | _, _, _ => none

/-- Lines 201-209: the normalized dict appended for each accepted finding. -/
def normFinding (fs : List (String × Json)) : Finding :=
  ⟨dictGetD fs "severity" (Json.str "Unknown"),
   dictGetD fs "category" (Json.str "Unknown"),
   dictGetD fs "description" (Json.str ""),
   dictGetD fs "location" (Json.str "N/A"),
   dictGetD fs "recommendation" (Json.str "")⟩

/-- The validation loop of `parse_findings`; `none` models an exception
escaping the loop (TypeError from `in`, or `.get` on a non-dict), which makes
the enclosing except return the empty list wholesale. -/
def normLoop : List Json → Option (List Finding)
  | [] => some []
  | f :: rest =>
    match requiredKeysCheck f with
    | none => none
    | some false => normLoop rest
    | some true =>
      match f with
      | Json.obj fs =>
        match normLoop rest with
        | none => none
        | some r => some (normFinding fs :: r)
      | _ => none

/-- Lines 189-215 of `parse_findings` once a decoded value is in hand:
wrap a bare dict, iterate, validate and normalize; any exception gives []. -/
def parseShape (findings : Json) : List Finding :=
  let shaped :=
    match findings with
    | Json.obj fs => Json.arr [Json.obj fs]
    | x => x
  match pyIterElems shaped with
  | none => []
  | some elems => (normLoop elems).getD []

/-- `RepoScanner.parse_findings` (lines 175-215).  A string response goes
through newline stripping, the bracket regex and `json.loads`; a structured
response is used directly.  Every caught exception yields []. -/
def parse_findings (response : Json) : List Finding :=
  match response with
  | Json.str s =>
    match greedyBracketSearch (s.data.filter (fun c => c ≠ '\n')) with
    | none => []
    | some sub =>
      match json_loads ⟨sub⟩ with
      | none => []
      | some findings => parseShape findings
  | other => parseShape other

/-- The list-of-dicts value `generate_scanned_result` hands to
`parse_findings`. -/
def findingsToJson (fs : List Finding) : Json :=
  Json.arr (fs.map (fun f => Json.obj f.toObj))

/-- `RepoScanner.analyze_batch` (lines 151-173): call the collaborator and
parse the result; `generate_scanned_result` itself never raises, so the
batch-level except is not reached on transport errors. -/
def analyze_batch (o : GroqOutcome) : List Finding :=
  parse_findings (findingsToJson (generate_scanned_result o))

/-! ## File filter (lines 78-87) -/

/-- The default extension allow-list from `RepoScanner.__init__`. -/
def default_file_extensions : List String :=
  [".py", ".js", ".ts", ".java", ".cpp", ".c", ".h", ".hpp", ".cs", ".go",
   ".rb", ".php", ".swift", ".kt", ".rs"]

/-- `os.path.splitext(p)[1]`: the extension starts at the last dot of the
final path component, provided a non-dot character precedes it there. -/
def splitextExt (path : String) : String :=
  let l := path.data
  match lastIdxOf l '.' with
  | none => ""
  | some d =>
    let base :=
      match lastIdxOf l '/' with
      | none => 0
      | some i => i + 1
    if base ≤ d ∧ ((l.drop base).take (d - base)).any (fun c => c ≠ '.')
    then ⟨l.drop d⟩ else ""

/-- Python `str.lower()` (ASCII). -/
def pyLowerStr (s : String) : String := ⟨s.data.map Char.toLower⟩

/-- `RepoScanner.is_analyzable_file`: size cap, then
`not extension or extension not in self.file_extensions`. -/
def is_analyzable_file (maxFileSize : Nat) (exts : List String)
    (path : String) (size : Nat) : Bool :=
  if size > maxFileSize then false
  else
    let extension := pyLowerStr (splitextExt path)
    if extension = "" ∨ extension ∉ exts then false
    else true

/-! ## Batcher (lines 144-149) and orchestrator (lines 217-258, 302-359) -/

/-- Length of Python `range(0, stop, step)` for a positive step. -/
def pyRangeLen (stop step : Nat) : Nat := (stop + step - 1) / step

/-- Python `range(0, stop, step)`: empty for a negative step; `step = 0`
raises and is handled by the caller. -/
def pyRangeZero (stop : Nat) (step : Int) : List Nat :=
  if step ≤ 0 then []
  else (List.range (pyRangeLen stop step.toNat)).map (fun k => k * step.toNat)

/-- `RepoScanner.chunk_files`:
`[files[i : i + b] for i in range(0, len(files), b)]`.  `none` models the
ValueError Python raises when the range step is zero. -/
def chunk_files (b : Int) (files : List α) : Option (List (List α)) :=
  if b = 0 then none
  else some ((pyRangeZero files.length b).map
    (fun i => (files.drop i).take b.toNat))

/-- The batch list `chunk_files` produces for a positive batch size, with the
range indices pushed into the slices. -/
def chunksNat (b : Nat) (l : List α) : List (List α) :=
  (List.range (pyRangeLen l.length b)).map (fun k => (l.drop (k * b)).take b)

/-- A repository file as gathered by `get_repo_files` (already filtered). -/
structure RepoFile where
  path : String
  content : String
  size : Nat

/-- The batch loop of `analyze_repo` (lines 230-246): per-batch findings,
concatenated in batch order. -/
def aggregateFindings (outcomes : List GroqOutcome) : List Finding :=
  (outcomes.map analyze_batch).flatten

/-- The sentinel returned by `analyze_repo`'s except block (lines 248-258). -/
def analysisFailedFinding (msg : String) : Finding :=
  mkFinding "High" "Error" ("Analysis failed: " ++ msg) "N/A"
    "Please check your configuration and try again"

/-- `RepoScanner.analyze_repo` (lines 217-258).  `listing` is the outcome of
`get_repo_files` (the filtered file list, or the exception it re-raises);
`oracle` gives the collaborator outcome for each batch index. -/
def analyze_repo (b : Int) (listing : Except String (List RepoFile))
    (oracle : Nat → GroqOutcome) : List Finding :=
  match listing with
  | Except.error e => [analysisFailedFinding e]
  | Except.ok files =>
    if files.isEmpty then []
    else
      match chunk_files b files with
      | none => [analysisFailedFinding "range() arg 3 must not be zero"]
      | some batches =>
        aggregateFindings ((List.range batches.length).map oracle)

/-- The `run` command (lines 302-359): a failed scanner construction (missing
token) exits 1; otherwise `analyze_repo` never raises and the command
completes with exit code 0.  Returns (displayed findings, exit code). -/
def run_scan (tokenOk : Bool) (b : Int) (listing : Except String (List RepoFile))
    (oracle : Nat → GroqOutcome) : List Finding × Nat :=
  if tokenOk then (analyze_repo b listing oracle, 0) else ([], 1)

end GPA

namespace GPA

/-! ## Helper lemmas -/

theorem cleanFinding_toObj (f : Finding) : cleanFinding f.toObj = f := rfl

theorem normFinding_toObj (f : Finding) : normFinding f.toObj = f := rfl

theorem requiredKeysCheck_toObj (f : Finding) :
    requiredKeysCheck (Json.obj f.toObj) = some true := rfl

theorem toObj_has_keys (f : Finding) :
    dictHas f.toObj "severity" = true ∧ dictHas f.toObj "category" = true ∧
    dictHas f.toObj "description" = true ∧ dictHas f.toObj "location" = true ∧
    dictHas f.toObj "recommendation" = true := ⟨rfl, rfl, rfl, rfl, rfl⟩

theorem normLoop_complete (fs : List Finding) :
    normLoop (fs.map (fun f => Json.obj f.toObj)) = some fs := by
  induction fs with
  | nil => rfl
  | cons f rest ih =>
    simp only [List.map_cons, normLoop, requiredKeysCheck_toObj, ih, normFinding_toObj]

theorem parse_findings_complete (fs : List Finding) :
    parse_findings (findingsToJson fs) = fs := by
  show (normLoop (fs.map (fun f => Json.obj f.toObj))).getD [] = fs
  rw [normLoop_complete]
  rfl

theorem analyze_batch_eq (o : GroqOutcome) :
    analyze_batch o = generate_scanned_result o := parse_findings_complete _

theorem nonEmptyOrNoIssues_ne_nil (fs : List Finding) : nonEmptyOrNoIssues fs ≠ [] := by
  unfold nonEmptyOrNoIssues
  split
  · exact List.cons_ne_nil _ _
  · next h => intro hc; rw [hc] at h; exact h rfl

theorem validateAndClean_ne_nil (x : Json) : validateAndClean x ≠ [] := by
  unfold validateAndClean
  split
  · exact List.cons_ne_nil _ _
  · exact nonEmptyOrNoIssues_ne_nil _

theorem gsr_text_ne_nil (raw : String) : generate_scanned_result_text raw ≠ [] := by
  simp only [generate_scanned_result_text]
  split
  · exact validateAndClean_ne_nil _
  · split
    · split
      · exact validateAndClean_ne_nil _
      · exact validateAndClean_ne_nil _
    · exact validateAndClean_ne_nil _

theorem generate_ne_nil (o : GroqOutcome) : generate_scanned_result o ≠ [] := by
  cases o with
  | ok t => exact gsr_text_ne_nil t
  | err e => exact List.cons_ne_nil _ _

theorem analyze_batch_ne_nil (o : GroqOutcome) : analyze_batch o ≠ [] := by
  rw [analyze_batch_eq]; exact generate_ne_nil o

theorem aggregateFindings_ne_nil (os : List GroqOutcome) (h : os ≠ []) :
    aggregateFindings os ≠ [] := by
  unfold aggregateFindings
  intro hc
  rw [List.flatten_eq_nil_iff] at hc
  cases os with
  | nil => exact h rfl
  | cons o rest =>
    exact analyze_batch_ne_nil o (hc (analyze_batch o) (by simp))

/-! ## Claim theorems -/

/-- Claim C9: field-default filling is idempotent — filling an already
complete Finding leaves it unchanged, so applying the filling step twice
yields the same Finding as applying it once. -/
theorem c9_defaults_idempotent :
    (∀ f : Finding, cleanFinding f.toObj = f) ∧
    (∀ d : List (String × Json),
      cleanFinding (cleanFinding d).toObj = cleanFinding d) :=
  ⟨fun _ => rfl, fun _ => rfl⟩

/-- Claim C10: with zero analyzable files the pipeline returns the empty
finding list — independent of the analyzer oracle (it is never invoked) and
without any error sentinel, so the ≥1-element guarantee does not apply. -/
theorem c10_empty_listing : ∀ (b : Int) (oracle : Nat → GroqOutcome),
    analyze_repo b (Except.ok []) oracle = [] := fun _ _ => rfl

/-- Claim C6 counterexample: a listing failure does not abort with a non-zero
outcome; `run` completes with exit code 0 and a one-element sentinel list. -/
theorem c6_counterexample :
    run_scan true 5 (Except.error "404 Not Found") (fun _ => GroqOutcome.ok "") =
      ([analysisFailedFinding "404 Not Found"], 0) := rfl

/-- Claim C6 (amended): a listing failure is caught inside `analyze_repo`; a
user-visible error is printed and the scan yields a single High/Error
"Analysis failed" sentinel Finding, and the process completes with exit
code 0 (only a failed scanner construction exits non-zero). -/
theorem c6_amended : ∀ (b : Int) (e : String) (oracle : Nat → GroqOutcome),
    analyze_repo b (Except.error e) oracle = [analysisFailedFinding e] ∧
    run_scan true b (Except.error e) oracle = ([analysisFailedFinding e], 0) :=
  fun _ _ _ => ⟨rfl, rfl⟩

/-- Claim C5 counterexample: a transport error during the analyzer call does
not make the batch contribute an empty finding list — the batch contributes
one High/Error "Analysis error" Finding. -/
theorem c5_counterexample :
    analyze_batch (GroqOutcome.err "Connection error") ≠ [] ∧
    analyze_batch (GroqOutcome.err "Connection error") =
      [mkFinding "High" "Error" "Analysis error: Connection error" "N/A"
        "Check your Groq API configuration and try again"] :=
  ⟨analyze_batch_ne_nil _, rfl⟩

/-- Claim C5 (amended): a transport/auth error raised by the collaborator is
caught inside `generate_scanned_result` and converted into a single
High/Error "Analysis error" Finding for that batch; the remaining batches are
still analyzed and the aggregate is the concatenation, in batch order, of
every batch's findings, the failing batch contributing that error finding. -/
theorem c5_amended : ∀ (pre post : List GroqOutcome) (e : String),
    analyze_batch (GroqOutcome.err e) = [analysisErrorFinding e] ∧
    aggregateFindings (pre ++ GroqOutcome.err e :: post) =
      aggregateFindings pre ++ analysisErrorFinding e :: aggregateFindings post := by
  intro pre post e
  constructor
  · rw [analyze_batch_eq]; rfl
  · simp only [aggregateFindings, List.map_append, List.map_cons,
      List.flatten_append, List.flatten_cons, analyze_batch_eq,
      generate_scanned_result, List.singleton_append]

/-- Claim C7: every dict that survives the decode/shape steps is completed
with the named field defaults rather than discarded; in particular the raw
output `'{"findings":[{"severity":"High","category":"Security","description":"x"}]}'`
yields exactly one Finding with location "Unknown" and recommendation
"No recommendation provided", the other fields preserved. -/
theorem c7_defaults_fill :
    (∀ (fs : List (String × Json)) (elems : List Json),
      Json.obj fs ∈ elems → cleanFinding fs ∈ cleanedFindings elems) ∧
    generate_scanned_result_text
        "\x7b\"findings\":[\x7b\"severity\":\"High\",\"category\":\"Security\",\"description\":\"x\"\x7d]\x7d" =
      [⟨Json.str "High", Json.str "Security", Json.str "x", Json.str "Unknown",
        Json.str "No recommendation provided"⟩] := by
  constructor
  · intro fs elems h
    unfold cleanedFindings
    exact List.mem_filterMap.mpr ⟨Json.obj fs, h, rfl⟩
  · rfl

theorem c7_defaults_fill_witness :
    cleanFinding [] ∈ cleanedFindings [Json.obj []] :=
  c7_defaults_fill.1 [] [Json.obj []] (List.mem_singleton.mpr rfl)

/-- Claim C3 counterexample: on input "\x7boops\x7d" the bracketed substring
exists but fails to decode, and the parser returns the synthetic Finding
whose description is "Code analysis completed with parsing issues", not the
"structured results unavailable" description the claim states for all
fallback cases. -/
theorem c3_counterexample :
    generate_scanned_result_text "\x7boops\x7d" = [parsingIssuesFinding] ∧
    parsingIssuesFinding.description ≠
      Json.str "analysis completed but structured results unavailable" := by
  refine ⟨rfl, fun h => absurd (Json.str.inj h) (by decide)⟩

/-- Claim C3 (amended): the parser applies the stated precedence — full-text
decode, then decode of the greedy bracket match — shaping successful decodes
via `shapeFindings` and the cleaning step; when the greedy match exists but
fails to re-decode the synthetic Finding is severity Medium, category
Quality, description "Code analysis completed with parsing issues",
location "Repository-wide"; only when no bracketed substring exists is the
description "Code analysis completed but structured results unavailable". -/
theorem c3_amended :
    (∀ (raw : String) (j : Json), json_loads (pyStrip raw) = some j →
      generate_scanned_result_text raw = validateAndClean (shapeFindings j)) ∧
    (∀ (raw : String) (sub : List Char) (j : Json),
      json_loads (pyStrip raw) = none →
      greedyBracketSearch (pyStrip raw).data = some sub →
      json_loads ⟨sub⟩ = some j →
      generate_scanned_result_text raw = validateAndClean (shapeFindings j)) ∧
    (∀ (raw : String) (sub : List Char),
      json_loads (pyStrip raw) = none →
      greedyBracketSearch (pyStrip raw).data = some sub →
      json_loads ⟨sub⟩ = none →
      generate_scanned_result_text raw = [parsingIssuesFinding]) ∧
    (∀ raw : String, json_loads (pyStrip raw) = none →
      greedyBracketSearch (pyStrip raw).data = none →
      generate_scanned_result_text raw = [unavailableFinding]) := by
  refine ⟨?_, ?_, ?_, ?_⟩
  · intro raw j h1
    simp only [generate_scanned_result_text, h1]
  · intro raw sub j h1 h2 h3
    simp only [generate_scanned_result_text, h1, h2, h3]
  · intro raw sub h1 h2 h3
    simp only [generate_scanned_result_text, h1, h2, h3]
    rfl
  · intro raw h1 h2
    simp only [generate_scanned_result_text, h1, h2]
    rfl

theorem c3_amended_witness :
    generate_scanned_result_text "hello" = [unavailableFinding] :=
  c3_amended.2.2.2 "hello" rfl rfl

end GPA

namespace GPA

theorem default_exts_lower :
    ∀ e ∈ default_file_extensions, pyLowerStr e = e := by decide

theorem default_exts_ne_empty : ("" : String) ∉ default_file_extensions := by decide

/-- Claim C4: the filter accepts exactly the files whose size is within the
(default) cap and whose extension, compared case-insensitively, belongs to
the fixed allow-list; files without an extension are rejected; and the
Scenario A inputs behave as stated. -/
theorem c4_file_filter :
    (∀ (path : String) (size : Nat),
      is_analyzable_file 100000 default_file_extensions path size = true ↔
        size ≤ 100000 ∧ ∃ e ∈ default_file_extensions,
          pyLowerStr (splitextExt path) = pyLowerStr e) ∧
    (∀ (path : String) (size : Nat), splitextExt path = "" →
      is_analyzable_file 100000 default_file_extensions path size = false) ∧
    is_analyzable_file 100000 default_file_extensions "a.py" 500 = true ∧
    is_analyzable_file 100000 default_file_extensions "b.png" 500 = false ∧
    is_analyzable_file 100000 default_file_extensions "c.js" 500 = true := by
  refine ⟨?_, ?_, by decide, by decide, by decide⟩
  · intro path size
    simp only [is_analyzable_file]
    split
    · next hs =>
      constructor
      · intro h; exact absurd h (by simp)
      · intro h; exact absurd h.1 (by omega)
    · next hs =>
      have hle : size ≤ 100000 := by omega
      split
      · next hcond =>
        constructor
        · intro h; exact absurd h (by simp)
        · rintro ⟨-, e, he, hxe⟩
          rcases hcond with h0 | hnm
          · rw [hxe, default_exts_lower e he] at h0
            exact (default_exts_ne_empty (h0 ▸ he)).elim
          · exact (hnm (by rw [hxe, default_exts_lower e he]; exact he)).elim
      · next hcond =>
        push_neg at hcond
        exact ⟨fun _ => ⟨hle, _, hcond.2, (default_exts_lower _ hcond.2).symm⟩,
          fun _ => rfl⟩
  · intro path size h
    simp only [is_analyzable_file, h]
    split
    · rfl
    · split
      · rfl
      · next hcond => exact absurd (Or.inl rfl) hcond

theorem c4_file_filter_witness :
    is_analyzable_file 100000 default_file_extensions "README" 500 = false :=
  c4_file_filter.2.1 "README" 500 rfl

/-- The aggregate of a non-empty file list under a positive batch size is
non-empty: the batch count is positive and every batch yields at least one
finding. -/
theorem analyze_repo_pos (b : Int) (x : RepoFile) (xs : List RepoFile)
    (oracle : Nat → GroqOutcome) (hb : 0 < b) :
    1 ≤ (analyze_repo b (Except.ok (x :: xs)) oracle).length := by
  have hb0 : b ≠ 0 := by omega
  have hbn : 0 < b.toNat := by omega
  have hchunk : chunk_files b (x :: xs) =
      some ((pyRangeZero (x :: xs).length b).map
        (fun i => (((x :: xs) : List RepoFile).drop i).take b.toNat)) := by
    unfold chunk_files; rw [if_neg hb0]
  have hlen : 1 ≤ ((pyRangeZero (x :: xs).length b).map
      (fun i => (((x :: xs) : List RepoFile).drop i).take b.toNat)).length := by
    rw [List.length_map]
    unfold pyRangeZero
    rw [if_neg (by omega : ¬ b ≤ 0), List.length_map, List.length_range]
    unfold pyRangeLen
    refine (Nat.one_le_div_iff hbn).mpr ?_
    simp only [List.length_cons]
    omega
  simp only [analyze_repo, List.isEmpty_cons, Bool.false_eq_true, if_false, hchunk]
  have hne2 : ((List.range ((pyRangeZero (x :: xs).length b).map
      (fun i => (((x :: xs) : List RepoFile).drop i).take b.toNat)).length).map oracle) ≠ [] :=
    List.ne_nil_of_length_pos (by rw [List.length_map, List.length_range]; exact hlen)
  exact List.length_pos.mpr (aggregateFindings_ne_nil _ hne2)

/-- Claim C1: for every raw analyzer output, the batch parse/normalize stage
returns at least one Finding, each carrying all five fields; consequently the
aggregate of a scan with a positive batch size is non-empty whenever at least
one file was analyzable. -/
theorem c1_normalization_totality :
    (∀ raw : String,
      1 ≤ (analyze_batch (GroqOutcome.ok raw)).length ∧
      ∀ f ∈ analyze_batch (GroqOutcome.ok raw),
        dictHas f.toObj "severity" = true ∧ dictHas f.toObj "category" = true ∧
        dictHas f.toObj "description" = true ∧ dictHas f.toObj "location" = true ∧
        dictHas f.toObj "recommendation" = true) ∧
    (∀ (b : Int) (files : List RepoFile) (oracle : Nat → GroqOutcome),
      0 < b → files ≠ [] →
      1 ≤ (analyze_repo b (Except.ok files) oracle).length) := by
  constructor
  · intro raw
    exact ⟨List.length_pos.mpr (analyze_batch_ne_nil _), fun f _ => toObj_has_keys f⟩
  · intro b files oracle hb hne
    cases files with
    | nil => exact absurd rfl hne
    | cons x xs => exact analyze_repo_pos b x xs oracle hb

theorem c1_normalization_totality_witness :
    1 ≤ (analyze_repo 5 (Except.ok [⟨"a.py", "print(1)", 500⟩])
        (fun _ => GroqOutcome.ok "")).length :=
  c1_normalization_totality.2 5 [⟨"a.py", "print(1)", 500⟩]
    (fun _ => GroqOutcome.ok "") (by decide) (List.cons_ne_nil _ _)

end GPA

namespace GPA

/-! ## Batching lemmas -/

theorem pyRangeLen_zero (b : Nat) (hb : 0 < b) : pyRangeLen 0 b = 0 := by
  unfold pyRangeLen
  exact Nat.div_eq_of_lt (by omega)

theorem pyRangeLen_succ (n b : Nat) (hb : 0 < b) (hn : 0 < n) :
    pyRangeLen n b = pyRangeLen (n - b) b + 1 := by
  unfold pyRangeLen
  have h1 : n + b - 1 = (n - 1) + b := by omega
  rw [h1, Nat.add_div_right _ hb]
  have h2 : (n - b + b - 1) / b = (n - 1) / b := by
    by_cases hnb : b ≤ n
    · have h3 : n - b + b - 1 = n - 1 := by omega
      rw [h3]
    · have h3 : n - b = 0 := by omega
      rw [h3, Nat.zero_add, Nat.div_eq_of_lt (by omega), Nat.div_eq_of_lt (by omega)]
  rw [h2]

theorem chunk_files_pos (b : Int) (hb : 0 < b) (l : List α) :
    chunk_files b l = some (chunksNat b.toNat l) := by
  unfold chunk_files chunksNat pyRangeZero
  rw [if_neg (by omega : ¬ b = 0), if_neg (by omega : ¬ b ≤ 0), List.map_map]
  rfl

theorem chunksNat_nil (b : Nat) (hb : 0 < b) : chunksNat b ([] : List α) = [] := by
  unfold chunksNat
  rw [List.length_nil, pyRangeLen_zero b hb]
  rfl

theorem chunksNat_cons (b : Nat) (hb : 0 < b) (l : List α) (hne : l ≠ []) :
    chunksNat b l = l.take b :: chunksNat b (l.drop b) := by
  unfold chunksNat
  have hn : 0 < l.length := List.length_pos.mpr hne
  rw [List.length_drop, pyRangeLen_succ l.length b hb hn, List.range_succ_eq_map,
    List.map_cons, List.map_map]
  congr 1
  · rw [Nat.zero_mul, List.drop_zero]
  · exact congrArg (fun f => List.map f _)
      (funext fun k => by
        simp only [Function.comp_apply]
        rw [List.drop_drop, Nat.succ_mul, Nat.add_comm (k * b) b])

theorem chunksNat_ne_nil (b : Nat) (hb : 0 < b) (l : List α) (hne : l ≠ []) :
    chunksNat b l ≠ [] := by
  rw [chunksNat_cons b hb l hne]
  exact List.cons_ne_nil _ _

theorem chunksNat_flatten (b : Nat) (hb : 0 < b) :
    ∀ (n : Nat) (l : List α), l.length ≤ n → (chunksNat b l).flatten = l := by
  intro n
  induction n with
  | zero =>
    intro l hl
    have h0 : l = [] := List.eq_nil_of_length_eq_zero (by omega)
    subst h0
    rw [chunksNat_nil b hb]
    rfl
  | succ m ih =>
    intro l hl
    by_cases hne : l = []
    · subst hne; rw [chunksNat_nil b hb]; rfl
    · rw [chunksNat_cons b hb l hne, List.flatten_cons,
        ih (l.drop b) (by rw [List.length_drop]; omega)]
      exact List.take_append_drop b l

theorem chunksNat_dropLast (b : Nat) (hb : 0 < b) :
    ∀ (n : Nat) (l : List α), l.length ≤ n →
      ∀ c ∈ (chunksNat b l).dropLast, c.length = b := by
  intro n
  induction n with
  | zero =>
    intro l hl c hc
    have h0 : l = [] := List.eq_nil_of_length_eq_zero (by omega)
    subst h0
    rw [chunksNat_nil b hb] at hc
    exact absurd hc (List.not_mem_nil c)
  | succ m ih =>
    intro l hl c hc
    by_cases hne : l = []
    · subst hne; rw [chunksNat_nil b hb] at hc
      exact absurd hc (List.not_mem_nil c)
    · rw [chunksNat_cons b hb l hne] at hc
      by_cases hd : l.drop b = []
      · rw [hd, chunksNat_nil b hb] at hc
        simp at hc
      · rcases List.exists_cons_of_ne_nil (chunksNat_ne_nil b hb (l.drop b) hd)
          with ⟨y, ys, hys⟩
        rw [hys, List.dropLast_cons₂] at hc
        rcases List.mem_cons.mp hc with h1 | h2
        · subst h1
          rw [List.length_take]
          have hbl : b ≤ l.length := by
            by_contra hc2
            exact hd (List.drop_eq_nil_iff.mpr (by omega))
          omega
        · exact ih (l.drop b) (by rw [List.length_drop]; omega) c (by rw [hys]; exact h2)

theorem chunksNat_getLast (b : Nat) (hb : 0 < b) :
    ∀ (n : Nat) (l : List α), l.length ≤ n → l ≠ [] →
      ∀ c, (chunksNat b l).getLast? = some c → 1 ≤ c.length ∧ c.length ≤ b := by
  intro n
  induction n with
  | zero =>
    intro l hl hne
    exact absurd (List.eq_nil_of_length_eq_zero (by omega)) hne
  | succ m ih =>
    intro l hl hne c hc
    rw [chunksNat_cons b hb l hne] at hc
    by_cases hd : l.drop b = []
    · rw [hd, chunksNat_nil b hb] at hc
      have hcl : c = l.take b := by
        have := hc
        simp only [List.getLast?_singleton, Option.some_inj] at this
        exact this.symm
      subst hcl
      rw [List.length_take]
      have h1 : l.length ≤ b := List.drop_eq_nil_iff.mp hd
      have h2 : 0 < l.length := List.length_pos.mpr hne
      omega
    · rcases List.exists_cons_of_ne_nil (chunksNat_ne_nil b hb (l.drop b) hd)
        with ⟨y, ys, hys⟩
      rw [hys, List.getLast?_cons_cons] at hc
      exact ih (l.drop b) (by rw [List.length_drop]; omega) hd c (by rw [hys]; exact hc)

/-- Claim C2: for every file sequence and every positive batch size the
batcher conserves the sequence — the concatenation of the batches is the
input, every batch except possibly the last has exactly the batch size, the
last has between 1 and the batch size — and 12 files at batch size 5 yield
batches of sizes 5, 5 and 2. -/
theorem c2_batching_conservation :
    (∀ {α : Type} (b : Int) (files : List α), 0 < b →
      ∃ batches, chunk_files b files = some batches ∧
        batches.flatten = files ∧
        (∀ c ∈ batches.dropLast, c.length = b.toNat) ∧
        (∀ c, batches.getLast? = some c → 1 ≤ c.length ∧ c.length ≤ b.toNat)) ∧
    chunk_files 5 (List.range 12) =
      some [[0, 1, 2, 3, 4], [5, 6, 7, 8, 9], [10, 11]] := by
  constructor
  · intro α b files hb
    have hbn : 0 < b.toNat := by omega
    refine ⟨chunksNat b.toNat files, chunk_files_pos b hb files, ?_, ?_, ?_⟩
    · exact chunksNat_flatten b.toNat hbn files.length files le_rfl
    · exact chunksNat_dropLast b.toNat hbn files.length files le_rfl
    · intro c hc
      by_cases hne : files = []
      · subst hne
        rw [chunksNat_nil b.toNat hbn] at hc
        exact absurd hc (by simp)
      · exact chunksNat_getLast b.toNat hbn files.length files le_rfl hne c hc
  · rfl

theorem c2_batching_conservation_witness :
    ∃ batches, chunk_files 3 (List.range 7) = some batches ∧
      batches.flatten = List.range 7 ∧
      (∀ c ∈ batches.dropLast, c.length = (3 : Int).toNat) ∧
      (∀ c, batches.getLast? = some c → 1 ≤ c.length ∧ c.length ≤ (3 : Int).toNat) :=
  c2_batching_conservation.1 3 (List.range 7) (by decide)

/-- Claim C8 counterexample: a negative batch size is not rejected — the
batcher silently returns the empty batch sequence for batchSize -1 on a
non-empty input. -/
theorem c8_counterexample :
    chunk_files (-1) ([0] : List Nat) = some [] ∧
    chunk_files (-1) ([0] : List Nat) ≠ none := ⟨rfl, by decide⟩

/-- Claim C8 (amended): only batchSize = 0 raises an error (the range step
ValueError, which the orchestrator catches and converts into an "Analysis
failed" sentinel finding); a negative batchSize is silently accepted and
yields the empty batch sequence. -/
theorem c8_amended :
    (∀ files : List Nat, chunk_files 0 files = none) ∧
    (∀ (b : Int) (files : List Nat), b < 0 → chunk_files b files = some []) ∧
    (∀ (oracle : Nat → GroqOutcome) (files : List RepoFile), files ≠ [] →
      analyze_repo 0 (Except.ok files) oracle =
        [analysisFailedFinding "range() arg 3 must not be zero"]) := by
  refine ⟨fun files => rfl, ?_, ?_⟩
  · intro b files hb
    unfold chunk_files
    rw [if_neg (by omega : ¬ b = 0)]
    unfold pyRangeZero
    rw [if_pos (by omega : b ≤ 0)]
    rfl
  · intro oracle files hne
    cases files with
    | nil => exact absurd rfl hne
    | cons x xs => rfl

theorem c8_amended_witness :
    chunk_files (-2) ([1, 2, 3] : List Nat) = some [] :=
  c8_amended.2.1 (-2) [1, 2, 3] (by decide)

end GPA
